import Mathlib

/-!
Shallow embedding of `simple_mcp_server.py` and `advanced_mcp_server.py`
(two MCP example servers) and proofs about their handlers.

External components — the Python `eval` runtime, the wall clock, `subprocess`
output, SQLite's `CURRENT_TIMESTAMP`, file mtimes assigned by the OS, and the
network — are modelled as explicit environment inputs (`SimpleEnv`, `Env`).
The SQLite database and the workspace directory are modelled as an explicit
`Store` value threaded through the handlers.
-/

namespace MCP

/-! ## Simple server (`simple_mcp_server.py`) -/

/-- Embeds Python `text[::-1]`: code-point-wise string reversal. -/
def pyReverse (t : String) : String := ⟨t.data.reverse⟩

/-- Python's ASCII whitespace characters, as used by `str.split()` with no
separator (Unicode whitespace beyond ASCII is not modelled). -/
def isPySpace (c : Char) : Bool :=
  c == ' ' || c == '\t' || c == '\n' || c == '\r' || c == '\x0b' || c == '\x0c'

/-- Embeds Python `str.split()` (no separator): split on runs of whitespace,
discarding empty pieces. `acc` holds the current word, reversed. -/
def splitWsAux : List Char → List Char → List (List Char)
  | [], acc => if acc.isEmpty then [] else [acc.reverse]
  | c :: cs, acc =>
    if isPySpace c then
      if acc.isEmpty then splitWsAux cs [] else acc.reverse :: splitWsAux cs []
    else splitWsAux cs (c :: acc)

/-- Python `text.split()`. -/
def pySplitWs (t : String) : List (List Char) := splitWsAux t.data []

/-- Embeds Python `text.split('\n')`: split at every newline, keeping empty
pieces, so the result always has one more piece than there are newlines. -/
def splitNlAux : List Char → List Char → List (List Char)
  | [], acc => [acc.reverse]
  | c :: cs, acc =>
    if c == '\n' then acc.reverse :: splitNlAux cs [] else splitNlAux cs (c :: acc)

/-- Python `text.split('\n')`. -/
def pySplitNl (t : String) : List (List Char) := splitNlAux t.data []

/-- Embeds Python `str.replace(c, '')`: remove every occurrence of `c`. -/
def pyRemove (c : Char) (l : List Char) : List Char := l.filter (fun d => d != c)

/-- `char_count = len(text)` in the text_analyzer handler. -/
def charCount (t : String) : Nat := t.length

/-- `word_count = len(text.split())` in the text_analyzer handler. -/
def wordCount (t : String) : Nat := (pySplitWs t).length

/-- `line_count = len(text.split('\n'))` in the text_analyzer handler. -/
def lineCount (t : String) : Nat := (pySplitNl t).length

/-- `len(text.replace(' ', '').replace('\n', '').replace('\t', ''))` in the
text_analyzer handler. -/
def nonWsCount (t : String) : Nat :=
  (pyRemove '\t' (pyRemove '\n' (pyRemove ' ' t.data))).length

/-- The analysis f-string built by the text_analyzer branch. -/
def analysisText (t : String) : String :=
  "テキスト分析結果:\n文字数: " ++ toString (charCount t) ++
  "\n単語数: " ++ toString (wordCount t) ++
  "\n行数: " ++ toString (lineCount t) ++
  "\n空白を除く文字数: " ++ toString (nonWsCount t) ++ "\n"

/-- Arguments dict of the simple server's tools. -/
structure SimpleArgs where
  expression : Option String := none
  text : Option String := none
deriving DecidableEq, Repr

/-- External runtime of the simple server: `eval` with empty `__builtins__`
and a given dict of allowed names is the Python interpreter, modelled as an
oracle taking the expression and the list of allowed names and returning
either `str(result)` or the text of the raised exception. -/
structure SimpleEnv where
  evalFn : String → List String → Except String String

/-- The keys of `allowed_names` in the calculator branch. -/
def calcAllowedNames : List String :=
  ["abs", "round", "min", "max", "pow", "sum", "len"]

namespace Simple

/-- Embeds the simple server's `handle_read_resource`: the one known URI
returns the greeting, anything else raises `ValueError` (modelled as
`Except.error` carrying the exception message). -/
def handle_read_resource (uri : String) : Except String String :=
  if uri = "sample://greeting" then
    .ok "Hello from MCP Server! This is a sample resource."
  else
    .error ("Unknown resource: " ++ uri)

/-- Embeds the simple server's `handle_call_tool`. The returned list of
`TextContent` items is modelled as a list of their text fields; raising
`ValueError` is modelled as `Except.error`. -/
def handle_call_tool (env : SimpleEnv) (name : String) (args : SimpleArgs) :
    Except String (List String) :=
  if name = "calculator" then
    let expression := args.expression.getD ""
    match env.evalFn expression calcAllowedNames with
    | .ok r => .ok ["計算結果: " ++ expression ++ " = " ++ r]
    | .error e => .ok ["計算エラー: " ++ e]
  else if name = "text_analyzer" then
    let text := args.text.getD ""
    .ok [analysisText text]
  else if name = "reverse_text" then
    let text := args.text.getD ""
    .ok ["元のテキスト: " ++ text ++ "\n逆順テキスト: " ++ pyReverse text]
  else
    .error ("Unknown tool: " ++ name)

end Simple

/-! ## Specification-side counting of words (for claim C8) -/

/-- Number of maximal runs of non-whitespace characters; `prevSpace` records
whether the previous character was whitespace (true at the start). -/
def runCountAux (prevSpace : Bool) : List Char → Nat
  | [] => 0
  | c :: cs =>
    (if prevSpace && !isPySpace c then 1 else 0) + runCountAux (isPySpace c) cs

/-- Number of maximal whitespace-separated runs in a character list. -/
def runCount (l : List Char) : Nat := runCountAux true l

/-! ## Advanced server (`advanced_mcp_server.py`)

The SQLite database `notes.db` (tables `notes` and `tasks`) and the files of
the workspace directory `mcp_workspace` form the on-disk store, modelled by
`Store`. The AUTOINCREMENT id counters are modelled by `notesSeq`/`tasksSeq`
(the next id to assign; `cursor.lastrowid` after an INSERT is the id of the
inserted row). Timestamps (`CURRENT_TIMESTAMP`, file mtimes, `datetime.now`)
are opaque strings delivered by the environment `Env`. -/

/-- A row of the `notes` table. -/
structure Note where
  id : Nat
  title : String
  content : String
  createdAt : String
  updatedAt : String
deriving DecidableEq, Repr

/-- A row of the `tasks` table. -/
structure Task where
  id : Nat
  title : String
  description : Option String
  status : String
  createdAt : String
  dueDate : Option String
deriving DecidableEq, Repr

/-- A filesystem entry below the workspace directory: basename, path relative
to `WORK_DIR`, whether it is a regular file, its content, byte size and
formatted mtime. -/
structure Entry where
  name : String
  relPath : String
  isFile : Bool
  content : String
  size : Nat
  mtime : String
deriving DecidableEq, Repr

/-- The persistent on-disk store: both database tables with their id
counters, and the workspace directory entries. -/
structure Store where
  notes : List Note := []
  notesSeq : Nat := 1
  tasks : List Task := []
  tasksSeq : Nat := 1
  entries : List Entry := []
deriving DecidableEq, Repr

/-- External environment of one advanced-server call: the formatted current
time (`datetime.now().strftime`), the timestamp SQLite/the OS assigns to new
rows and files, the stdout of `df -h`, the network — `requests.get` modelled
as url to either the exception text or (status code, body) — and the
filesystem OUTSIDE the workspace, reached when `WORK_DIR / filename`
resolves to a path that is not under `WORK_DIR` (an absolute filename, or
one whose `..` components climb past the workspace root): `fsExists` is
`Path.exists()` there, `fsRead` is `read_text` (content or exception text),
`fsWrite` is `write_text` (unit or exception text) and `fsDelete` is
`unlink` (unit or exception text). Effects of outside writes fall outside
the modelled store. -/
structure Env where
  nowStr : String
  nowTs : String
  dfOut : String
  http : String → Except String (Nat × String)
  fsExists : String → Bool
  fsRead : String → Except String String
  fsWrite : String → String → Except String Unit
  fsDelete : String → Except String Unit

/-- Output of one advanced `handle_call_tool` call: the store after the call,
the texts of the returned `TextContent` items, and the URLs of the outbound
HTTP requests issued during the call. -/
structure AdvOut where
  store : Store
  result : List String
  httpReqs : List String
deriving Repr

/-- The arguments dict of the advanced server's tools (absent keys are
`none`; `arguments.get` with a default is `Option.getD`). -/
structure AdvArgs where
  action : Option String := none
  filename : Option String := none
  content : Option String := none
  title : Option String := none
  noteId : Option Nat := none
  searchQuery : Option String := none
  command : Option String := none
  location : Option String := none
  url : Option String := none
  method : Option String := none
deriving DecidableEq, Repr

/-- True for entries directly in `WORK_DIR`, i.e. yielded by
`WORK_DIR.iterdir()` as opposed to `WORK_DIR.rglob("*")`. -/
def topLevel (e : Entry) : Bool := !(e.relPath.contains '/')

/-- The filter applied to both workspace listings:
`file_path.is_file() and file_path.name != "notes.db"`. -/
def listedFile (e : Entry) : Bool := e.isFile && e.name != "notes.db"

/-- The files collected by the `mcp://workspace-files` resource:
`WORK_DIR.rglob("*")` filtered to regular files other than `notes.db`. -/
def rglobFiles (st : Store) : List Entry := st.entries.filter listedFile

/-- The files collected by the file_operations `list` action:
`WORK_DIR.iterdir()` filtered to regular files other than `notes.db`. -/
def iterdirFiles (st : Store) : List Entry :=
  (st.entries.filter topLevel).filter listedFile

/-- Renders a string as a JSON string (escaping inside the value is not
modelled; no claim inspects it). -/
def jsonStr (s : String) : String := "\"" ++ s ++ "\""

/-- One element of the `json.dumps` output of the workspace-files resource:
a dict with name, path, size and modified. -/
def entryJsonFull (e : Entry) : String :=
  "\x7b\"name\": " ++ jsonStr e.name ++ ", \"path\": " ++ jsonStr e.relPath ++
  ", \"size\": " ++ toString e.size ++ ", \"modified\": " ++ jsonStr e.mtime ++ "\x7d"

/-- One element of the `json.dumps` output of the file_operations list
action: a dict with name, size and modified. -/
def entryJsonList (e : Entry) : String :=
  "\x7b\"name\": " ++ jsonStr e.name ++ ", \"size\": " ++ toString e.size ++
  ", \"modified\": " ++ jsonStr e.mtime ++ "\x7d"

/-- `json.dumps` of a list (the `indent=2` layout is abstracted to a
single-line array; no claim inspects it). -/
def jsonArray (l : List String) : String :=
  "[" ++ String.intercalate ", " l ++ "]"

/-- JSON object for one row of `notes` as returned by the `mcp://notes`
resource. -/
def noteJson (n : Note) : String :=
  "\x7b\"id\": " ++ toString n.id ++ ", \"title\": " ++ jsonStr n.title ++
  ", \"content\": " ++ jsonStr n.content ++ ", \"created_at\": " ++
  jsonStr n.createdAt ++ ", \"updated_at\": " ++ jsonStr n.updatedAt ++ "\x7d"

/-- JSON object for one row of `tasks` as returned by the `mcp://tasks`
resource. -/
def taskJson (t : Task) : String :=
  "\x7b\"id\": " ++ toString t.id ++ ", \"title\": " ++ jsonStr t.title ++
  ", \"description\": " ++ jsonStr (t.description.getD "null") ++
  ", \"status\": " ++ jsonStr t.status ++ ", \"created_at\": " ++
  jsonStr t.createdAt ++ ", \"due_date\": " ++ jsonStr (t.dueDate.getD "null") ++ "\x7d"

/-- Insert into a list sorted by `le` (a Bool total preorder). -/
def insertBy (le : α → α → Bool) (a : α) : List α → List α
  | [] => [a]
  | b :: bs => if le a b then a :: b :: bs else b :: insertBy le a bs

/-- Insertion sort by `le`. -/
def sortBy (le : α → α → Bool) : List α → List α
  | [] => []
  | a :: as => insertBy le a (sortBy le as)

/-- `ORDER BY updated_at DESC` over the notes table (ties keep a fixed
order, as SQLite leaves them unspecified). -/
def notesByUpdatedDesc (ns : List Note) : List Note :=
  sortBy (fun a b => !decide (a.updatedAt < b.updatedAt)) ns

/-- `ORDER BY created_at DESC` over the tasks table. -/
def tasksByCreatedDesc (ts : List Task) : List Task :=
  sortBy (fun a b => !decide (a.createdAt < b.createdAt)) ts

namespace Advanced

/-- Embeds the advanced server's `handle_read_resource`. The store the call
ends with is returned alongside the content so that its read-only character
is visible; raising `ValueError` is `Except.error`. -/
def handle_read_resource (st : Store) (uri : String) :
    (Except String String) × Store :=
  if uri = "mcp://workspace-files" then
    (.ok (jsonArray ((rglobFiles st).map entryJsonFull)), st)
  else if uri = "mcp://notes" then
    (.ok (jsonArray ((notesByUpdatedDesc st.notes).map noteJson)), st)
  else if uri = "mcp://tasks" then
    (.ok (jsonArray ((tasksByCreatedDesc st.tasks).map taskJson)), st)
  else
    (.error ("Unknown resource: " ++ uri), st)

end Advanced

/-- Output used when a handler raises and the outer
`except Exception as e: return [... f"エラーが発生しました: {str(e)}"]`
of `handle_call_tool` catches it. -/
def errorOut (st : Store) (msg : String) : AdvOut :=
  ⟨st, ["エラーが発生しました: " ++ msg], []⟩

/-- Text of the `TypeError` raised by `WORK_DIR / None` when the filename
argument is absent (the exact Python wording varies by version). -/
def pathNoneMsg : String :=
  "argument should be a str or an os.PathLike object where __fspath__ returns a str, not <class \x27NoneType\x27>"

/-- Text of the `IsADirectoryError` raised by reading a directory. -/
def isDirMsg (fn : String) : String :=
  "[Errno 21] Is a directory: \x27" ++ fn ++ "\x27"

/-- Text of the `requests.exceptions.MissingSchema` raised by
`requests.get(None)` when the url argument is absent. -/
def missingUrlMsg : String :=
  "Invalid URL \x27None\x27: No scheme supplied."

/-- Text of the `FileNotFoundError` raised by `write_text` when the parent
directory of the target does not exist. -/
def noParentMsg (fn : String) : String :=
  "[Errno 2] No such file or directory: \x27" ++ fn ++ "\x27"

/-- Resolution of the components of `WORK_DIR / filename` as the OS performs
it on access: empty and `.` components vanish, `..` pops one component. A
`..` that climbs past the workspace root leaves the workspace (`none`);
whether such a path re-enters the workspace depends on the absolute location
of `WORK_DIR`, which is not modelled, so all of them are served by the
outside-filesystem oracles of `Env`. -/
def resolveAux : List String → List String → Option (List String)
  | stack, [] => some stack.reverse
  | stack, c :: cs =>
    if c = "" || c = "." then resolveAux stack cs
    else if c = ".." then
      match stack with
      | [] => none
      | _ :: rest => resolveAux rest cs
    else resolveAux (c :: stack) cs

/-- The components of a path string, split at every slash. -/
def splitSlashAux : List Char → List Char → List String
  | [], acc => [⟨acc.reverse⟩]
  | c :: cs, acc =>
    if c == '/' then (⟨acc.reverse⟩ : String) :: splitSlashAux cs []
    else splitSlashAux cs (c :: acc)

/-- The path `WORK_DIR / filename` as a component list relative to
`WORK_DIR`, or `none` when it leaves the workspace — an absolute filename
(for which `WORK_DIR / filename` is the filename itself) or a relative one
whose `..` components climb past the workspace root. -/
def workspacePath (fn : String) : Option (List String) :=
  match fn.data with
  | '/' :: _ => none
  | _ => resolveAux [] (splitSlashAux fn.data [])

/-- True when the parent of the resolved target exists as a directory in
the workspace (the workspace root itself always exists): `write_text` does
not create parent directories. -/
def parentIsDir (st : Store) (comps : List String) : Bool :=
  match comps.dropLast with
  | [] => true
  | ps => st.entries.any (fun e =>
      e.relPath == String.intercalate "/" ps && !e.isFile)

/-- True when the call's filename argument, if present, resolves inside the
workspace, so that the operation touches only the modelled store. -/
def localFilename (args : AdvArgs) : Bool :=
  match args.filename with
  | none => true
  | some fn => (workspacePath fn).isSome

/-- The `file_operations` branch of `handle_call_tool`. `none` means the
branch fell through without returning (an unmatched action), in which case
the dispatcher reaches its final unknown-tool return. Raises inside the
branch (a missing filename, a directory target, a missing parent directory,
an outside-filesystem exception) are caught by the outer `except` of
`handle_call_tool`, fused here into `errorOut`. A filename resolving
outside the workspace reaches the outside filesystem through the `Env`
oracles; a filename resolving to the workspace root itself (`some []`) is a
directory target. -/
def fileOperations (env : Env) (st : Store) (args : AdvArgs) : Option AdvOut :=
  if args.action = some "list" then
    some ⟨st, ["ワークスペースファイル一覧:\n" ++
      jsonArray ((iterdirFiles st).map entryJsonList)], []⟩
  else if args.action = some "read" then
    match args.filename with
    | none => some (errorOut st pathNoneMsg)
    | some fn =>
      match workspacePath fn with
      | none =>
        if env.fsExists fn then
          match env.fsRead fn with
          | .ok content =>
            some ⟨st, ["ファイル \x27" ++ fn ++ "\x27 の内容:\n\n" ++ content], []⟩
          | .error e => some (errorOut st e)
        else some ⟨st, ["ファイル \x27" ++ fn ++ "\x27 が見つかりません。"], []⟩
      | some [] => some (errorOut st (isDirMsg fn))
      | some (c :: cs) =>
        match st.entries.find?
            (fun e => e.relPath == String.intercalate "/" (c :: cs)) with
        | some e =>
          if e.isFile then
            some ⟨st, ["ファイル \x27" ++ fn ++ "\x27 の内容:\n\n" ++ e.content], []⟩
          else
            some (errorOut st (isDirMsg fn))
        | none => some ⟨st, ["ファイル \x27" ++ fn ++ "\x27 が見つかりません。"], []⟩
  else if args.action = some "write" then
    match args.filename with
    | none => some (errorOut st pathNoneMsg)
    | some fn =>
      match workspacePath fn with
      | none =>
        match env.fsWrite fn (args.content.getD "") with
        | .ok _ => some ⟨st, ["ファイル \x27" ++ fn ++ "\x27 に書き込みました。"], []⟩
        | .error e => some (errorOut st e)
      | some [] => some (errorOut st (isDirMsg fn))
      | some (c :: cs) =>
        match st.entries.find?
            (fun e => e.relPath == String.intercalate "/" (c :: cs)) with
        | some e =>
          if e.isFile then
            some ⟨{ st with entries := st.entries.map (fun e2 =>
                if e2.relPath == String.intercalate "/" (c :: cs) then
                  { e2 with
                    content := args.content.getD "",
                    size := (args.content.getD "").utf8ByteSize,
                    mtime := env.nowTs }
                else e2) },
              ["ファイル \x27" ++ fn ++ "\x27 に書き込みました。"], []⟩
          else
            some (errorOut st (isDirMsg fn))
        | none =>
          if parentIsDir st (c :: cs) then
            some ⟨{ st with entries := st.entries ++
                [⟨(c :: cs).getLastD c, String.intercalate "/" (c :: cs), true,
                  args.content.getD "", (args.content.getD "").utf8ByteSize,
                  env.nowTs⟩] },
              ["ファイル \x27" ++ fn ++ "\x27 に書き込みました。"], []⟩
          else some (errorOut st (noParentMsg fn))
  else if args.action = some "delete" then
    match args.filename with
    | none => some (errorOut st pathNoneMsg)
    | some fn =>
      match workspacePath fn with
      | none =>
        if env.fsExists fn then
          match env.fsDelete fn with
          | .ok _ => some ⟨st, ["ファイル \x27" ++ fn ++ "\x27 を削除しました。"], []⟩
          | .error e => some (errorOut st e)
        else some ⟨st, ["ファイル \x27" ++ fn ++ "\x27 が見つかりません。"], []⟩
      | some [] => some (errorOut st (isDirMsg fn))
      | some (c :: cs) =>
        match st.entries.find?
            (fun e => e.relPath == String.intercalate "/" (c :: cs)) with
        | some e =>
          if e.isFile then
            some ⟨{ st with
                entries := st.entries.filter
                  (fun e2 => e2.relPath != String.intercalate "/" (c :: cs)) },
              ["ファイル \x27" ++ fn ++ "\x27 を削除しました。"], []⟩
          else
            some (errorOut st (isDirMsg fn))
        | none => some ⟨st, ["ファイル \x27" ++ fn ++ "\x27 が見つかりません。"], []⟩
  else none

/-- Embeds Python string slicing `s[:n]`: the first n code points. -/
def pyTake (n : Nat) (s : String) : String := ⟨s.data.take n⟩

/-- Embeds SQLite `LIKE` pattern matching (no ESCAPE clause): `%` matches
any sequence of characters, `_` matches any single character, and any other
pattern character matches case-insensitively on ASCII letters. First
argument is fuel bounding the recursion depth (each step shortens pattern
plus subject, so `likeChars` below always supplies enough), then the
pattern, then the subject. -/
def likeCharsFuel : Nat → List Char → List Char → Bool
  | 0, _, _ => false
  | _ + 1, [], [] => true
  | _ + 1, [], _ :: _ => false
  | f + 1, '%' :: ps, [] => likeCharsFuel f ps []
  | f + 1, '%' :: ps, c :: s =>
    likeCharsFuel f ps (c :: s) || likeCharsFuel f ('%' :: ps) s
  | _ + 1, '_' :: _, [] => false
  | f + 1, '_' :: ps, _ :: s => likeCharsFuel f ps s
  | _ + 1, _ :: _, [] => false
  | f + 1, p :: ps, c :: s => (p.toLower == c.toLower) && likeCharsFuel f ps s

/-- SQLite `LIKE` on character lists: pattern, then subject. -/
def likeChars (p s : List Char) : Bool :=
  likeCharsFuel (p.length + s.length + 1) p s

/-- Embeds `column LIKE ?` with the bound pattern `f"%{query}%"` used by the
note search. -/
def likeMatch (q s : String) : Bool :=
  likeChars ("%" ++ q ++ "%").data s.data

/-- One block of the note search result:
`f"ID: {note[0]} | {note[1]}\n{note[2][:100]}...\n\n"`. -/
def noteSearchLine (n : Note) : String :=
  "ID: " ++ toString n.id ++ " | " ++ n.title ++ "\n" ++
  pyTake 100 n.content ++ "...\n\n"

/-- The `note_manager` branch of `handle_call_tool`. Only the `create` and
`search` actions return; every other action runs `conn.close()` and falls
through (`none`), reaching the dispatcher's final unknown-tool return — the
source marks the rest with the placeholder comment
`# その他のnote_manager操作...`. -/
def noteManager (env : Env) (st : Store) (args : AdvArgs) : Option AdvOut :=
  if args.action = some "create" then
    let title := args.title.getD "無題"
    let content := args.content.getD ""
    let note : Note := ⟨st.notesSeq, title, content, env.nowTs, env.nowTs⟩
    some ⟨{ st with notes := st.notes ++ [note], notesSeq := st.notesSeq + 1 },
      ["ノート \x27" ++ title ++ "\x27 を作成しました（ID: " ++
        toString st.notesSeq ++ "）"], []⟩
  else if args.action = some "search" then
    let q := args.searchQuery.getD ""
    let found := (notesByUpdatedDesc st.notes).filter
      (fun n => likeMatch q n.title || likeMatch q n.content)
    if found.isEmpty then
      some ⟨st, ["\x27" ++ q ++ "\x27 に一致するノートが見つかりませんでした。"], []⟩
    else
      some ⟨st, [found.foldl (fun acc n => acc ++ noteSearchLine n)
        ("検索結果 (\x27" ++ q ++ "\x27):\n\n")], []⟩
  else none

/-- The `system_info` branch of `handle_call_tool`. `memory_info` and
`cpu_info` are declared in the tool schema but have no branch: they fall
through (`none`). -/
def systemInfo (env : Env) (st : Store) (args : AdvArgs) : Option AdvOut :=
  if args.command = some "disk_usage" then
    some ⟨st, ["ディスク使用量:\n" ++ env.dfOut], []⟩
  else if args.command = some "current_time" then
    some ⟨st, ["現在時刻: " ++ env.nowStr], []⟩
  else if args.command = some "weather" then
    some ⟨st, [(args.location.getD "Tokyo") ++
      "の天気情報を取得するにはAPIキーが必要です。"], []⟩
  else none

/-- The `web_request` branch of `handle_call_tool`. A GET issues one
`requests.get(url, timeout=10)`; its inner `try/except` turns any failure
into a リクエストエラー text. Any other method returns the fixed 実装中
message without touching the network. -/
def webRequest (env : Env) (st : Store) (args : AdvArgs) : AdvOut :=
  if args.method.getD "GET" = "GET" then
    match args.url with
    | none => ⟨st, ["リクエストエラー: " ++ missingUrlMsg], []⟩
    | some u =>
      match env.http u with
      | .ok r =>
        ⟨st, ["HTTP " ++ toString r.1 ++ " レスポンス:\n" ++ pyTake 1000 r.2 ++ "..."], [u]⟩
      | .error e => ⟨st, ["リクエストエラー: " ++ e], [u]⟩
  else ⟨st, ["POSTリクエストは実装中です。"], []⟩

namespace Advanced

/-- Embeds the advanced server's `handle_call_tool`: dispatch by string
equality on the tool name; a branch that falls through without returning
ends at the final `return [... f"不明なツール: {name}"]`. There is no
`task_manager` branch, although `handle_list_tools` declares that tool. -/
def handle_call_tool (env : Env) (st : Store) (name : String) (args : AdvArgs) :
    AdvOut :=
  if name = "file_operations" then
    match fileOperations env st args with
    | some out => out
    | none => ⟨st, ["不明なツール: " ++ name], []⟩
  else if name = "note_manager" then
    match noteManager env st args with
    | some out => out
    | none => ⟨st, ["不明なツール: " ++ name], []⟩
  else if name = "system_info" then
    match systemInfo env st args with
    | some out => out
    | none => ⟨st, ["不明なツール: " ++ name], []⟩
  else if name = "web_request" then
    webRequest env st args
  else ⟨st, ["不明なツール: " ++ name], []⟩

end Advanced

/-! ## Concrete fixtures used to instantiate universally quantified
theorems at specific inputs -/

/-- A fixed environment: offline network, constant clock. -/
def env0 : Env :=
  ⟨"2025-01-01 00:00:00", "2025-01-01 00:00:00", "", fun _ => .error "offline",
    fun _ => false, fun _ => .error "fs", fun _ _ => .error "fs",
    fun _ => .error "fs"⟩

/-- A fixed simple-server environment whose eval oracle always fails. -/
def senv0 : SimpleEnv := ⟨fun _ _ => .error "eval failed"⟩

/-- Environment of a call made at one wall-clock time. -/
def envClockA : Env :=
  ⟨"2025-01-01 00:00:00", "2025-01-01 00:00:00", "df-A", fun _ => .error "offline",
    fun _ => false, fun _ => .error "fs", fun _ _ => .error "fs",
    fun _ => .error "fs"⟩

/-- Environment of a later call: same store, later clock. -/
def envClockB : Env :=
  ⟨"2025-06-30 12:34:56", "2025-06-30 12:34:56", "df-B", fun _ => .error "offline",
    fun _ => false, fun _ => .error "fs", fun _ _ => .error "fs",
    fun _ => .error "fs"⟩

/-- Environment whose network returns status 200 with body "hello". -/
def envHttp : Env :=
  ⟨"2025-01-01 00:00:00", "2025-01-01 00:00:00", "", fun _ => .ok (200, "hello"),
    fun _ => false, fun _ => .error "fs", fun _ _ => .error "fs",
    fun _ => .error "fs"⟩

/-- A regular workspace file. -/
def entA : Entry := ⟨"a.txt", "a.txt", true, "hi", 2, "2025-01-01T00:00:00"⟩

/-- A workspace holding the database file, a regular file and a directory. -/
def storeW : Store :=
  { entries := [⟨"notes.db", "notes.db", true, "", 4096, "2025-01-01T00:00:00"⟩,
      entA, ⟨"sub", "sub", false, "", 0, "2025-01-01T00:00:00"⟩] }

/-! ## Proofs -/

theorem splitWsAux_length (cs : List Char) (acc : List Char) :
    (splitWsAux cs acc).length =
      if acc.isEmpty then runCountAux true cs else 1 + runCountAux false cs := by
  induction cs generalizing acc with
  | nil =>
    by_cases h : acc.isEmpty <;> simp [splitWsAux, runCountAux, h]
  | cons c cs ih =>
    by_cases hsp : isPySpace c
    · by_cases h : acc.isEmpty <;>
        simp [splitWsAux, runCountAux, hsp, h, ih] <;> omega
    · have hne : ((c :: acc).isEmpty) = false := rfl
      by_cases h : acc.isEmpty <;>
        simp [splitWsAux, runCountAux, hsp, h, ih, hne] <;> omega

theorem splitNlAux_length (cs : List Char) (acc : List Char) :
    (splitNlAux cs acc).length = cs.count '\n' + 1 := by
  induction cs generalizing acc with
  | nil => simp [splitNlAux]
  | cons c cs ih =>
    by_cases h : c == '\n' <;>
      simp [splitNlAux, h, ih, List.count_cons] <;> omega

theorem pyRemove_chain (l : List Char) :
    pyRemove '\t' (pyRemove '\n' (pyRemove ' ' l)) =
      l.filter (fun c => c != ' ' && c != '\n' && c != '\t') := by
  simp only [pyRemove, List.filter_filter]
  apply List.filter_congr
  intro c _
  by_cases h1 : c == ' ' <;> by_cases h2 : c == '\n' <;> by_cases h3 : c == '\t' <;>
    simp [bne, h1, h2, h3]

/-! ## Claims about the simple server -/

/-- C8: the text_analyzer tool reports a character count equal to the length
of the text, a word count equal to the number of maximal whitespace-separated
runs, a line count equal to the number of newline characters plus one, and a
whitespace-excluded count removing exactly spaces, newlines and tabs; the
empty string yields 0 characters, 0 words and 1 line, and the handler returns
the analysis of these counts. -/
theorem text_analyzer_counts (t : String) :
    charCount t = t.data.length ∧
    wordCount t = runCount t.data ∧
    lineCount t = t.data.count '\n' + 1 ∧
    nonWsCount t =
      (t.data.filter (fun c => c != ' ' && c != '\n' && c != '\t')).length ∧
    charCount "" = 0 ∧ wordCount "" = 0 ∧ lineCount "" = 1 ∧
    (∀ env e, Simple.handle_call_tool env "text_analyzer" ⟨e, some t⟩ =
      .ok [analysisText t]) := by
  refine ⟨rfl, ?_, splitNlAux_length t.data [], ?_, rfl, rfl, rfl, ?_⟩
  · have h := splitWsAux_length t.data []
    simpa [runCount] using h
  · simp [nonWsCount, pyRemove_chain]
  · intro env e
    rfl

/-- C5: the reverse_text tool computes the character-wise reversal of its
input: the result has the same length, its i-th character is the (n-1-i)-th
character of the input, reversing twice is the identity, and the handler
returns the original text together with its reversal. -/
theorem reverse_text_reversal (t : String) (i : Nat) (h : i < t.length) :
    (pyReverse t).length = t.length ∧
    (pyReverse t).data[i]? = t.data[t.length - 1 - i]? ∧
    pyReverse (pyReverse t) = t ∧
    (∀ env e, Simple.handle_call_tool env "reverse_text" ⟨e, some t⟩ =
      .ok ["元のテキスト: " ++ t ++ "\n逆順テキスト: " ++ pyReverse t]) := by
  refine ⟨?_, ?_, ?_, ?_⟩
  · show t.data.reverse.length = t.length
    rw [List.length_reverse, String.length_data]
  · show t.data.reverse[i]? = t.data[t.length - 1 - i]?
    exact List.getElem?_reverse h
  · exact String.ext (by simp [pyReverse])
  · intro env e
    rfl

theorem reverse_text_reversal_witness :
    (pyReverse "abc").length = ("abc" : String).length ∧
    (pyReverse "abc").data[0]? =
      ("abc" : String).data[("abc" : String).length - 1 - 0]? ∧
    pyReverse (pyReverse "abc") = "abc" := by
  have h := reverse_text_reversal "abc" 0 (by decide)
  exact ⟨h.1, h.2.1, h.2.2.1⟩

/-- C6: the calculator tool never raises: for every eval oracle and every
argument dict (a missing expression defaulting to the empty string) it
returns normally with a single text that is either a 計算結果 success or a
計算エラー error report, and the dict of names passed to eval holds exactly
abs, round, min, max, pow, sum and len. -/
theorem calculator_never_raises (env : SimpleEnv) (args : SimpleArgs) :
    (∃ s rest, Simple.handle_call_tool env "calculator" args = .ok [s] ∧
      (s = "計算結果: " ++ rest ∨ s = "計算エラー: " ++ rest)) ∧
    Simple.handle_call_tool env "calculator" ⟨none, args.text⟩ =
      Simple.handle_call_tool env "calculator" ⟨some "", args.text⟩ ∧
    calcAllowedNames = ["abs", "round", "min", "max", "pow", "sum", "len"] := by
  refine ⟨?_, rfl, rfl⟩
  cases hev : env.evalFn (args.expression.getD "") calcAllowedNames with
  | ok r =>
    refine ⟨"計算結果: " ++ (args.expression.getD "") ++ " = " ++ r,
      (args.expression.getD "") ++ (" = " ++ r), ?_, Or.inl ?_⟩
    · simp [Simple.handle_call_tool, hev]
    · simp [String.append_assoc]
  | error e =>
    exact ⟨"計算エラー: " ++ e, e,
      by simp [Simple.handle_call_tool, hev], Or.inr rfl⟩

/-- C3: reading a resource is read-only and total over the store: on the
advanced server every URI leaves the store unchanged, the three known URIs
succeed and any other raises ValueError; on the simple server exactly
sample://greeting succeeds and any other URI raises ValueError. -/
theorem read_resource_readonly (st : Store) (uri : String) :
    (Advanced.handle_read_resource st uri).2 = st ∧
    ((∃ s, (Advanced.handle_read_resource st uri).1 = .ok s) ↔
      (uri = "mcp://workspace-files" ∨ uri = "mcp://notes" ∨ uri = "mcp://tasks")) ∧
    (¬(uri = "mcp://workspace-files" ∨ uri = "mcp://notes" ∨ uri = "mcp://tasks") →
      (Advanced.handle_read_resource st uri).1 =
        .error ("Unknown resource: " ++ uri)) ∧
    ((∃ s, Simple.handle_read_resource uri = .ok s) ↔ uri = "sample://greeting") ∧
    (uri ≠ "sample://greeting" →
      Simple.handle_read_resource uri = .error ("Unknown resource: " ++ uri)) := by
  by_cases h1 : uri = "mcp://workspace-files" <;>
  by_cases h2 : uri = "mcp://notes" <;>
  by_cases h3 : uri = "mcp://tasks" <;>
  by_cases h4 : uri = "sample://greeting" <;>
    simp_all [Advanced.handle_read_resource, Simple.handle_read_resource]

theorem read_resource_readonly_witness :
    (Advanced.handle_read_resource {} "mcp://other").2 = ({} : Store) ∧
    (Advanced.handle_read_resource {} "mcp://other").1 =
      .error ("Unknown resource: " ++ "mcp://other") ∧
    Simple.handle_read_resource "mcp://other" =
      .error ("Unknown resource: " ++ "mcp://other") := by
  have h := read_resource_readonly {} "mcp://other"
  exact ⟨h.1, h.2.2.1 (by decide), h.2.2.2.2 (by decide)⟩

/-- C4: a tool name matching no branch of the dispatch chain reaches the
final unknown-tool return on the advanced server, with the store unchanged,
and raises ValueError on the simple server; dispatch looks only at string
equality of the name. -/
theorem unknown_tool_dispatch (env : Env) (st : Store) (args : AdvArgs)
    (senv : SimpleEnv) (sargs : SimpleArgs) (name : String)
    (h1 : name ≠ "file_operations") (h2 : name ≠ "note_manager")
    (h3 : name ≠ "system_info") (h4 : name ≠ "web_request") :
    Advanced.handle_call_tool env st name args =
      ⟨st, ["不明なツール: " ++ name], []⟩ ∧
    (name ≠ "calculator" → name ≠ "text_analyzer" → name ≠ "reverse_text" →
      Simple.handle_call_tool senv name sargs =
        .error ("Unknown tool: " ++ name)) := by
  constructor
  · simp [Advanced.handle_call_tool, h1, h2, h3, h4]
  · intro g1 g2 g3
    simp [Simple.handle_call_tool, g1, g2, g3]

theorem unknown_tool_dispatch_witness :
    Advanced.handle_call_tool env0 {} "made_up_tool" {} =
      ⟨{}, ["不明なツール: made_up_tool"], []⟩ ∧
    Simple.handle_call_tool senv0 "made_up_tool" {} =
      .error ("Unknown tool: made_up_tool") := by
  have h := unknown_tool_dispatch env0 {} {} senv0 {} "made_up_tool"
    (by decide) (by decide) (by decide) (by decide)
  exact ⟨h.1, h.2 (by decide) (by decide) (by decide)⟩

/-- C9: both workspace listings — the mcp://workspace-files resource and the
file_operations list action — contain only regular files and never an entry
named notes.db, and those listings are exactly what the two handlers
return. -/
theorem workspace_listing_excludes_db (st : Store) (e : Entry)
    (h : e ∈ rglobFiles st ∨ e ∈ iterdirFiles st) :
    (e.isFile = true ∧ e.name ≠ "notes.db") ∧
    (Advanced.handle_read_resource st "mcp://workspace-files").1 =
      .ok (jsonArray ((rglobFiles st).map entryJsonFull)) ∧
    (∀ env args, args.action = some "list" →
      (Advanced.handle_call_tool env st "file_operations" args).result =
        ["ワークスペースファイル一覧:\n" ++
          jsonArray ((iterdirFiles st).map entryJsonList)]) := by
  refine ⟨?_, rfl, ?_⟩
  · have hf : listedFile e = true := by
      rcases h with h | h
      · exact List.of_mem_filter h
      · exact List.of_mem_filter h
    simpa [listedFile, Bool.and_eq_true, bne_iff_ne] using hf
  · intro env args ha
    simp [Advanced.handle_call_tool, fileOperations, ha]

theorem workspace_listing_excludes_db_witness :
    entA.isFile = true ∧ entA.name ≠ "notes.db" := by
  have h := workspace_listing_excludes_db storeW entA (Or.inl (by decide))
  exact h.1

/-- C10: a note_manager create call appends exactly one row to the notes
table — its id the next AUTOINCREMENT value, its title defaulting to 無題
and its content to the empty string — leaves the earlier notes, the tasks
table and the workspace files unchanged, and returns a text containing the
new row's id. -/
theorem note_create_inserts (env : Env) (st : Store) (args : AdvArgs)
    (h : args.action = some "create") :
    (Advanced.handle_call_tool env st "note_manager" args).store.notes =
      st.notes ++ [⟨st.notesSeq, args.title.getD "無題", args.content.getD "",
        env.nowTs, env.nowTs⟩] ∧
    (Advanced.handle_call_tool env st "note_manager" args).store.tasks =
      st.tasks ∧
    (Advanced.handle_call_tool env st "note_manager" args).store.entries =
      st.entries ∧
    (Advanced.handle_call_tool env st "note_manager" args).store.notesSeq =
      st.notesSeq + 1 ∧
    (∃ pre post, (Advanced.handle_call_tool env st "note_manager" args).result =
      [pre ++ toString st.notesSeq ++ post]) := by
  refine ⟨?_, ?_, ?_, ?_,
    ⟨"ノート \x27" ++ args.title.getD "無題" ++ "\x27 を作成しました（ID: ",
      "）", ?_⟩⟩ <;>
    simp [Advanced.handle_call_tool, noteManager, h]

theorem note_create_inserts_witness :
    (Advanced.handle_call_tool env0 {} "note_manager"
      { action := some "create" }).store.notes =
      [⟨1, "無題", "", "2025-01-01 00:00:00", "2025-01-01 00:00:00"⟩] ∧
    (Advanced.handle_call_tool env0 {} "note_manager"
      { action := some "create" }).store.notesSeq = 2 := by
  have h := note_create_inserts env0 {} { action := some "create" } rfl
  exact ⟨h.1, h.2.2.2.1⟩

/-- C1 evidence: the advertised full note/task lifecycle is missing from
handle_call_tool: every task_manager action and the note_manager read,
update and delete actions fall through to the final unknown-tool return
and leave the store untouched. -/
theorem task_manager_unimplemented (env : Env) (st : Store) :
    Advanced.handle_call_tool env st "task_manager"
      { action := some "create", title := some "牛乳を買う" } =
      ⟨st, ["不明なツール: task_manager"], []⟩ ∧
    Advanced.handle_call_tool env st "task_manager" { action := some "list" } =
      ⟨st, ["不明なツール: task_manager"], []⟩ ∧
    Advanced.handle_call_tool env st "task_manager"
      { action := some "complete", noteId := some 1 } =
      ⟨st, ["不明なツール: task_manager"], []⟩ ∧
    Advanced.handle_call_tool env st "note_manager"
      { action := some "read", noteId := some 1 } =
      ⟨st, ["不明なツール: note_manager"], []⟩ ∧
    Advanced.handle_call_tool env st "note_manager"
      { action := some "update", noteId := some 1, content := some "x" } =
      ⟨st, ["不明なツール: note_manager"], []⟩ ∧
    Advanced.handle_call_tool env st "note_manager"
      { action := some "delete", noteId := some 1 } =
      ⟨st, ["不明なツール: note_manager"], []⟩ := by
  refine ⟨?_, ?_, ?_, ?_, ?_, ?_⟩ <;> rfl

/-- C7: a web_request with url u and method GET issues exactly one outbound
request, to u, leaves the store unchanged, and returns the status code with
the first 1000 characters of the body on success or a リクエストエラー text
on failure, never raising; any other method issues no request and returns
the fixed 実装中 message. -/
theorem web_request_one_get (env : Env) (st : Store) (args : AdvArgs)
    (u : String) (hu : args.url = some u) :
    (args.method.getD "GET" = "GET" →
      (Advanced.handle_call_tool env st "web_request" args).httpReqs = [u] ∧
      (Advanced.handle_call_tool env st "web_request" args).store = st ∧
      (∀ code body, env.http u = .ok (code, body) →
        (Advanced.handle_call_tool env st "web_request" args).result =
          ["HTTP " ++ toString code ++ " レスポンス:\n" ++
            pyTake 1000 body ++ "..."]) ∧
      (∀ e, env.http u = .error e →
        (Advanced.handle_call_tool env st "web_request" args).result =
          ["リクエストエラー: " ++ e])) ∧
    (args.method.getD "GET" ≠ "GET" →
      (Advanced.handle_call_tool env st "web_request" args).httpReqs = [] ∧
      (Advanced.handle_call_tool env st "web_request" args).store = st ∧
      (Advanced.handle_call_tool env st "web_request" args).result =
        ["POSTリクエストは実装中です。"]) := by
  constructor
  · intro hm
    refine ⟨?_, ?_, ?_, ?_⟩
    · cases hh : env.http u <;>
        simp [Advanced.handle_call_tool, webRequest, hm, hu, hh]
    · cases hh : env.http u <;>
        simp [Advanced.handle_call_tool, webRequest, hm, hu, hh]
    · intro code body hh
      simp [Advanced.handle_call_tool, webRequest, hm, hu, hh]
    · intro e hh
      simp [Advanced.handle_call_tool, webRequest, hm, hu, hh]
  · intro hm
    refine ⟨?_, ?_, ?_⟩ <;>
      simp [Advanced.handle_call_tool, webRequest, hm, hu]

theorem web_request_one_get_witness :
    (Advanced.handle_call_tool envHttp {} "web_request"
      { url := some "http://example.com" }).httpReqs = ["http://example.com"] ∧
    (Advanced.handle_call_tool envHttp {} "web_request"
      { url := some "http://example.com" }).result =
      ["HTTP 200 レスポンス:\nhello..."] := by
  have h := (web_request_one_get envHttp {} { url := some "http://example.com" }
    "http://example.com" rfl).1 rfl
  have h2 := h.2.2.1 200 "hello" rfl
  refine ⟨h.1, ?_⟩
  rw [h2]
  decide

/-- C2 counterexample: two system_info current_time calls with identical
arguments against the identical (empty) on-disk store, made at different
wall-clock times, return different results — the result is not a function
of the store and the arguments alone. -/
theorem call_tool_clock_dependent :
    (Advanced.handle_call_tool envClockA {} "system_info"
      { command := some "current_time" }).result ≠
    (Advanced.handle_call_tool envClockB {} "system_info"
      { command := some "current_time" }).result := by
  decide

theorem fileOperations_result_env (e1 e2 : Env) (st : Store) (args : AdvArgs)
    (hl : localFilename args = true) :
    (fileOperations e1 st args).map AdvOut.result =
      (fileOperations e2 st args).map AdvOut.result := by
  unfold fileOperations
  by_cases h1 : args.action = some "list"
  · simp [h1]
  · by_cases h2 : args.action = some "read"
    · cases hf : args.filename with
      | none => simp [h1, h2, hf]
      | some fn =>
        have hl2 : (workspacePath fn).isSome = true := by
          simpa [localFilename, hf] using hl
        cases hw : workspacePath fn with
        | none => simp [hw] at hl2
        | some comps => cases comps <;> simp [h1, h2, hf, hw]
    · by_cases h3 : args.action = some "write"
      · cases hf : args.filename with
        | none => simp [h1, h2, h3, hf]
        | some fn =>
          have hl2 : (workspacePath fn).isSome = true := by
            simpa [localFilename, hf] using hl
          cases hw : workspacePath fn with
          | none => simp [hw] at hl2
          | some comps =>
            cases comps with
            | nil => simp [h1, h2, h3, hf, hw]
            | cons c cs =>
              cases hfind : st.entries.find?
                  (fun e => e.relPath == String.intercalate "/" (c :: cs)) with
              | some e =>
                by_cases he : e.isFile <;>
                  simp [h1, h2, h3, hf, hw, hfind, he]
              | none =>
                by_cases hp : parentIsDir st (c :: cs) <;>
                  simp [h1, h2, h3, hf, hw, hfind, hp]
      · by_cases h4 : args.action = some "delete"
        · cases hf : args.filename with
          | none => simp [h1, h2, h3, h4, hf]
          | some fn =>
            have hl2 : (workspacePath fn).isSome = true := by
              simpa [localFilename, hf] using hl
            cases hw : workspacePath fn with
            | none => simp [hw] at hl2
            | some comps => cases comps <;> simp [h1, h2, h3, h4, hf, hw]
        · simp [h1, h2, h3, h4]

theorem noteManager_result_env (e1 e2 : Env) (st : Store) (args : AdvArgs) :
    (noteManager e1 st args).map AdvOut.result =
      (noteManager e2 st args).map AdvOut.result := by
  unfold noteManager
  by_cases h : args.action = some "create" <;> simp [h]

/-- C2 amended: handlers keep no state of their own — for every tool except
system_info (wall clock, subprocess) and web_request (network), and except
file_operations calls whose filename argument escapes the workspace (an
absolute or ..-climbing path reaches the filesystem outside the store), the
result is determined by the arguments and the on-disk store alone; on the
simple server every tool except calculator (whose result consults the eval
runtime) is likewise environment-independent. -/
theorem call_tool_result_env_independent (e1 e2 : Env) (se1 se2 : SimpleEnv)
    (st : Store) (name : String) (args : AdvArgs) (sargs : SimpleArgs)
    (hs : name ≠ "system_info") (hw : name ≠ "web_request")
    (hl : name = "file_operations" → localFilename args = true)
    (hc : name ≠ "calculator") :
    (Advanced.handle_call_tool e1 st name args).result =
      (Advanced.handle_call_tool e2 st name args).result ∧
    Simple.handle_call_tool se1 name sargs =
      Simple.handle_call_tool se2 name sargs := by
  constructor
  · by_cases hf : name = "file_operations"
    · have hres := fileOperations_result_env e1 e2 st args (hl hf)
      subst hf
      cases ho1 : fileOperations e1 st args <;>
        cases ho2 : fileOperations e2 st args <;>
        rw [ho1, ho2] at hres <;>
        simp_all [Advanced.handle_call_tool]
    · by_cases hn : name = "note_manager"
      · subst hn
        have hres := noteManager_result_env e1 e2 st args
        cases ho1 : noteManager e1 st args <;>
          cases ho2 : noteManager e2 st args <;>
          rw [ho1, ho2] at hres <;>
          simp_all [Advanced.handle_call_tool]
      · simp [Advanced.handle_call_tool, hf, hn, hs, hw]
  · simp [Simple.handle_call_tool, hc]

theorem call_tool_result_env_independent_witness :
    (Advanced.handle_call_tool envClockA {} "note_manager"
      { action := some "create" }).result =
      (Advanced.handle_call_tool envClockB {} "note_manager"
        { action := some "create" }).result ∧
    Simple.handle_call_tool senv0 "note_manager" {} =
      Simple.handle_call_tool ⟨fun _ _ => .ok "1"⟩ "note_manager" {} := by
  exact call_tool_result_env_independent envClockA envClockB senv0
    ⟨fun _ _ => .ok "1"⟩ {} "note_manager" { action := some "create" } {}
    (by decide) (by decide) (by decide) (by decide)

end MCP
